import Mathlib

/-!
Verification of the credential-issuance controller
(aries-backchannels/aries-vcx/src/controllers/issuance.rs).

The controller itself (the three orchestrator operations and the two
role-state mapping functions) is embedded faithfully from the source.
External collaborators (the vcx role objects, the connection gateway, the
session store and the engine's numeric state codes) are not part of the
source file; they are modelled from the specification's collaborator
contracts, each such definition carries a doc comment saying so.

Effects are made explicit: every orchestrator operation returns the typed
result, the post-state of the agent, and the list of messages dispatched to
the network.  A `panic` outcome models a Rust `unwrap` on a missing value.
-/

namespace AriesIssuance

/-- External state vocabulary reported to callers (the crate's `State` enum,
referenced by the source as `crate::State`). -/
inductive State
  | Initial
  | OfferSent
  | RequestReceived
  | CredentialSent
  | OfferReceived
  | RequestSent
  | CredentialReceived
  | Unknown
  deriving DecidableEq, Repr

/-- Modelled from the spec: the foreign protocol engine reports numeric state
codes; §9 directs modelling the engine's output as an explicit enumerated
variant at the collaborator boundary.  The variants are the ones named by the
source's match arms, plus the remaining codes of the engine's vocabulary. -/
inductive VcxStateType
  | VcxStateNone
  | VcxStateInitialized
  | VcxStateOfferSent
  | VcxStateRequestReceived
  | VcxStateAccepted
  | VcxStateUnfulfilled
  | VcxStateExpired
  | VcxStateRevoked
  deriving DecidableEq, Repr

/-- Modelled from the spec: decoding of the engine's u32 state code into the
enumerated variant; any code not covered decodes to the none-state. -/
def VcxStateType.from_u32 (state : Nat) : VcxStateType :=
  match state with
  | 1 => .VcxStateInitialized
  | 2 => .VcxStateOfferSent
  | 3 => .VcxStateRequestReceived
  | 4 => .VcxStateAccepted
  | 5 => .VcxStateUnfulfilled
  | 6 => .VcxStateExpired
  | 7 => .VcxStateRevoked
  | _ => .VcxStateNone

/-- issuance.rs lines 16-21: the attribute preview of an offer.  Attribute
entries are opaque JSON values, modelled as strings. -/
structure CredentialPreview where
  msg_type : String
  attributes : List String
  deriving DecidableEq, Repr

/-- issuance.rs lines 23-28: the issuer-authored offer payload. -/
structure CredentialOffer where
  cred_def_id : String
  credential_preview : CredentialPreview
  connection_id : String
  deriving DecidableEq, Repr

/-- Modelled from the spec: the credential-offer wire message (§6), a tagged
message variant whose content is opaque to the orchestrator. -/
structure VcxCredentialOffer where
  content : String
  deriving DecidableEq, Repr

/-- Modelled from the spec: inbound protocol messages are distinguishable by
kind when scanning an inbox (§6); every non-offer kind is collapsed into one
opaque variant. -/
inductive A2AMessage
  | CredentialOffer : VcxCredentialOffer → A2AMessage
  | Other : String → A2AMessage
  deriving DecidableEq, Repr

/-- Modelled from the spec: the Connection Gateway (§2, §6).  The boolean
fields record whether obtaining the send closure, dispatching one message and
draining the inbox succeed for this channel; `inbox` lists the
(messageId, message) pairs in received order, oldest first, so the most
recently received message is the last one. -/
structure Connection where
  pw_did : String
  send_message_closure_ok : Bool
  send_ok : Bool
  get_messages_ok : Bool
  inbox : List (String × A2AMessage)
  deriving DecidableEq, Repr

/-- issuance.rs lines 54-58: the configuration an Issuer is created from. -/
structure IssuerConfig where
  cred_def_id : String
  rev_reg_id : Option String
  tails_file : Option String
  deriving DecidableEq, Repr

/-- Modelled from the spec: the Issuer role object (§3, §4.1).  It carries its
configuration, the serialized preview, the session id it was created for, and
the engine state exposed by its fallible get_state call: `state_u32 = none`
models that call failing, `some code` models it returning the code. -/
structure Issuer where
  config : IssuerConfig
  credential_preview : String
  source_id : String
  state_u32 : Option Nat
  deriving DecidableEq, Repr

/-- Modelled from the spec: Issuer creation (§4.1) constructs a fresh Issuer
bound to its configuration.  A fresh issuer is in the initialized engine
state.  §4.1 reserves a ConfigurationError for structurally invalid input;
the structural-validity predicate is left unspecified by the spec, so
creation is modelled as succeeding. -/
def Issuer.create (config : IssuerConfig) (preview : String) (id : String) : Issuer :=
  { config := config, credential_preview := preview, source_id := id, state_u32 := some 1 }

/-- Modelled from the spec: a successful offer send transitions the issuer to
OfferSent (§4.1); the engine code is the one the source maps to that external
state. -/
def Issuer.after_send_offer (i : Issuer) : Issuer :=
  { i with state_u32 := some 2 }

/-- Modelled from the spec: the Holder role object (§3, §4.2).  It carries the
received offer, the session id, and the engine status code reported by its
total get_status call. -/
structure Holder where
  offer : VcxCredentialOffer
  source_id : String
  status_u32 : Nat
  deriving DecidableEq, Repr

/-- Modelled from the spec: Holder creation (§4.2) always starts in
OfferReceived; the engine code is the one the source maps to that external
state. -/
def Holder.create (offer : VcxCredentialOffer) (id : String) : Holder :=
  { offer := offer, source_id := id, status_u32 := 3 }

/-- Modelled from the spec: a successful sendRequest transitions the holder to
RequestSent (§4.2); the engine code is the one the source maps to that
external state. -/
def Holder.after_send_request (h : Holder) : Holder :=
  { h with status_u32 := 2 }

/-- issuance.rs lines 31-37, the pure core of `_get_state_issuer`: the match
from the decoded engine state to the issuer's external vocabulary. -/
def issuer_state_map (v : VcxStateType) : State :=
  match v with
  | .VcxStateInitialized => .Initial
  | .VcxStateOfferSent => .OfferSent
  | .VcxStateRequestReceived => .RequestReceived
  | .VcxStateAccepted => .CredentialSent
  | _ => .Unknown

/-- issuance.rs lines 41-46, the pure core of `_get_state_holder`: the match
from the decoded engine state to the holder's external vocabulary. -/
def holder_state_map (v : VcxStateType) : State :=
  match v with
  | .VcxStateRequestReceived => .OfferReceived
  | .VcxStateOfferSent => .RequestSent
  | .VcxStateAccepted => .CredentialReceived
  | _ => .Unknown

/-- issuance.rs lines 30-38: `_get_state_issuer` unwraps the issuer's fallible
get_state call and maps the decoded code; `none` models the unwrap panicking
because the engine call failed. -/
def _get_state_issuer (issuer : Issuer) : Option State :=
  issuer.state_u32.map (fun code => issuer_state_map (VcxStateType.from_u32 code))

/-- issuance.rs lines 40-47: `_get_state_holder` maps the holder's status
code; get_status is total, so this map is total. -/
def _get_state_holder (holder : Holder) : State :=
  holder_state_map (VcxStateType.from_u32 holder.status_u32)

/-- Modelled from the spec: the Session Store holds one object per key; the
three kinds it is probed for in the source are connections, issuers and
holders (§6, §9: one store, several possible object kinds per key). -/
inductive StoredValue
  | conn : Connection → StoredValue
  | issuer : Issuer → StoredValue
  | holder : Holder → StoredValue
  deriving DecidableEq, Repr

/-- Modelled from the spec: the keyed persistence surface (§2, §6). -/
def Db := String → Option StoredValue

/-- Modelled from the spec: typed get (§6) — none when the key is absent or
holds an object of another kind. -/
def Db.get_connection (db : Db) (id : String) : Option Connection :=
  match db id with
  | some (.conn c) => some c
  | _ => none

/-- Modelled from the spec: typed get (§6) for issuers. -/
def Db.get_issuer (db : Db) (id : String) : Option Issuer :=
  match db id with
  | some (.issuer i) => some i
  | _ => none

/-- Modelled from the spec: typed get (§6) for holders. -/
def Db.get_holder (db : Db) (id : String) : Option Holder :=
  match db id with
  | some (.holder h) => some h
  | _ => none

/-- Modelled from the spec: single-key atomic overwrite (§6).  The store
contract makes a failed write leave the store untouched; writes are modelled
as succeeding. -/
def Db.set (db : Db) (id : String) (v : StoredValue) : Db :=
  fun k => if k = id then some v else db k

/-- The two error kinds the source constructs directly
(error.rs HarnessErrorType, as used at issuance.rs lines 53, 68, 70, 91). -/
inductive HarnessErrorType
  | NotFoundError
  | InternalServerError
  deriving DecidableEq, Repr

/-- A harness error as built by HarnessError::from_msg: kind and message. -/
structure HarnessError where
  error_type : HarnessErrorType
  message : String
  deriving DecidableEq, Repr

/-- Modelled from the spec: failures raised by the external collaborators and
forwarded by the source through HarnessError::from — obtaining the send
closure, dispatching a message, draining the inbox (§6, §7). -/
inductive VcxError
  | closureError
  | sendError
  | getMessagesError
  deriving DecidableEq, Repr

/-- How one orchestrator operation can fail: a typed harness error the source
constructs, a forwarded collaborator error, or a panic — the source's unwrap
on a missing value, which never produces a typed result. -/
inductive Failure
  | harness : HarnessError → Failure
  | vcx : VcxError → Failure
  | panic : Failure
  deriving DecidableEq, Repr

/-- The typed JSON body a successful operation returns: a state, and for
send-offer also the thread id. -/
structure Response where
  state : State
  thread_id : Option String
  deriving DecidableEq, Repr

/-- A message dispatched to the network through the connection gateway. -/
inductive SentMsg
  | credentialOfferMsg : String → String → String → SentMsg
  | credentialRequestMsg : String → VcxCredentialOffer → SentMsg
  deriving DecidableEq, Repr

/-- The orchestrator: issuance.rs uses its session store and its last-known
default connection (crate::Agent). -/
structure Agent where
  db : Db
  last_connection : Option Connection

/-- Outcome of one orchestrator operation: the typed result, the agent
post-state, and the messages dispatched during the operation. -/
structure OpResult where
  result : Except Failure Response
  agent : Agent
  sent : List SentMsg

/-- Modelled from the spec: serde serialization of the attribute preview.
The core only threads the serialized string through, never inspecting it, so
it is modelled as a plain rendering of the record. -/
def serializePreview (p : CredentialPreview) : String :=
  p.msg_type ++ "|" ++ String.intercalate "," p.attributes

/-- issuance.rs lines 50-64, `Agent::send_credential_offer`.  `uuid` is the
fresh session id the source draws from the uuid generator; note the source
interpolates this fresh id, not the connection id, into the not-found
message. -/
def Agent.send_credential_offer (self : Agent) (uuid : String)
    (cred_offer : CredentialOffer) : OpResult :=
  let id := uuid
  match self.db.get_connection cred_offer.connection_id with
  | none =>
      { result := .error (.harness ⟨.NotFoundError, "Connection with id " ++ id ++ " not found"⟩),
        agent := self, sent := [] }
  | some connection =>
      let issuer_config : IssuerConfig :=
        { cred_def_id := cred_offer.cred_def_id, rev_reg_id := none, tails_file := none }
      let credential_preview := serializePreview cred_offer.credential_preview
      let issuer := Issuer.create issuer_config credential_preview id
      if connection.send_message_closure_ok = false then
        { result := .error (.vcx .closureError), agent := self, sent := [] }
      else if connection.send_ok = false then
        { result := .error (.vcx .sendError), agent := self, sent := [] }
      else
        let issuer := issuer.after_send_offer
        { result := .ok { state := .OfferSent, thread_id := some id },
          agent := { self with db := self.db.set id (.issuer issuer) },
          sent := [.credentialOfferMsg cred_offer.cred_def_id credential_preview id] }

/-- issuance.rs lines 66-75, `Agent::send_credential_request`.  The updated
holder is not written back to the store — the source has no db.set here. -/
def Agent.send_credential_request (self : Agent) (id : String) : OpResult :=
  match self.db.get_holder id with
  | none =>
      { result := .error (.harness ⟨.NotFoundError, "Holder with id " ++ id ++ " not found"⟩),
        agent := self, sent := [] }
  | some holder =>
      match self.last_connection with
      | none =>
          { result := .error (.harness ⟨.InternalServerError, "No connection established"⟩),
            agent := self, sent := [] }
      | some connection =>
          if connection.send_message_closure_ok = false then
            { result := .error (.vcx .closureError), agent := self, sent := [] }
          else if connection.send_ok = false then
            { result := .error (.vcx .sendError), agent := self, sent := [] }
          else
            let holder := holder.after_send_request
            let state := _get_state_holder holder
            { result := .ok { state := state, thread_id := none },
              agent := self,
              sent := [.credentialRequestMsg connection.pw_did holder.offer] }

/-- issuance.rs lines 92-100: the inbox filtered down to credential-offer
messages, order preserved. -/
def credentialOffersOf (msgs : List (String × A2AMessage)) : List VcxCredentialOffer :=
  msgs.filterMap (fun m =>
    match m.2 with
    | .CredentialOffer cred_offer => some cred_offer
    | .Other _ => none)

/-- issuance.rs lines 77-108, `Agent::get_issuer_state`: the three-tier
lookup.  Tier one reads an issuer (its engine call unwrapped — panic when it
fails); tier two reads a holder; tier three requires the default connection,
drains its inbox, takes the last offer (unwrapped — panic when the filtered
list is empty), persists a fresh holder at the queried id and reports
offer-received. -/
def Agent.get_issuer_state (self : Agent) (id : String) : OpResult :=
  match self.db.get_issuer id with
  | some issuer =>
      match _get_state_issuer issuer with
      | none => { result := .error .panic, agent := self, sent := [] }
      | some state =>
          { result := .ok { state := state, thread_id := none }, agent := self, sent := [] }
  | none =>
      match self.db.get_holder id with
      | some holder =>
          let state := _get_state_holder holder
          { result := .ok { state := state, thread_id := none }, agent := self, sent := [] }
      | none =>
          match self.last_connection with
          | none =>
              { result := .error (.harness ⟨.InternalServerError, "No connection established"⟩),
                agent := self, sent := [] }
          | some connection =>
              if connection.get_messages_ok = false then
                { result := .error (.vcx .getMessagesError), agent := self, sent := [] }
              else
                let credential_offers := credentialOffersOf connection.inbox
                match credential_offers.getLast? with
                | none => { result := .error .panic, agent := self, sent := [] }
                | some last_offer =>
                    let holder := Holder.create last_offer id
                    { result := .ok { state := .OfferReceived, thread_id := none },
                      agent := { self with db := self.db.set id (.holder holder) },
                      sent := [] }

/-! ### Helper lemmas about the store -/

theorem Db.get_issuer_set_issuer (db : Db) (id : String) (i : Issuer) :
    (db.set id (.issuer i)).get_issuer id = some i := by
  simp [Db.set, Db.get_issuer]

theorem Db.get_holder_set_holder (db : Db) (id : String) (h : Holder) :
    (db.set id (.holder h)).get_holder id = some h := by
  simp [Db.set, Db.get_holder]

theorem Db.get_issuer_set_holder (db : Db) (id : String) (h : Holder) :
    (db.set id (.holder h)).get_issuer id = none := by
  simp [Db.set, Db.get_issuer]

theorem Db.set_ne (db : Db) (id k : String) (v : StoredValue) (hk : k ≠ id) :
    (db.set id v) k = db k := by
  simp [Db.set, hk]

/-! ### Concrete fixtures used by the witnesses -/

def testOffer1 : VcxCredentialOffer := ⟨"offerA"⟩

def testOffer2 : VcxCredentialOffer := ⟨"offerB"⟩

def testConn : Connection :=
  { pw_did := "did1", send_message_closure_ok := true, send_ok := true,
    get_messages_ok := true,
    inbox := [("m1", .CredentialOffer testOffer1), ("m2", .Other "ping"),
              ("m3", .CredentialOffer testOffer2)] }

def testConnEmptyInbox : Connection :=
  { pw_did := "did1", send_message_closure_ok := true, send_ok := true,
    get_messages_ok := true, inbox := [("m1", .Other "ping")] }

def testCredOffer : CredentialOffer :=
  { cred_def_id := "CD1", credential_preview := { msg_type := "t", attributes := [] },
    connection_id := "C1" }

def testDbConn : Db := fun k => if k = "C1" then some (.conn testConn) else none

def testHolder : Holder := Holder.create testOffer1 "S1"

def testDbHolder : Db := fun k => if k = "S1" then some (.holder testHolder) else none

def testIssuerOk : Issuer :=
  (Issuer.create { cred_def_id := "CD1", rev_reg_id := none, tails_file := none }
    "t|" "S1").after_send_offer

def testIssuerBroken : Issuer :=
  { testIssuerOk with state_u32 := none }

def testDbIssuerBroken : Db :=
  fun k => if k = "S1" then some (.issuer testIssuerBroken) else none

def agentEmpty : Agent := { db := fun _ => none, last_connection := none }

def agentWithConn : Agent := { db := testDbConn, last_connection := some testConn }

def agentWithHolder : Agent := { db := testDbHolder, last_connection := some testConn }

def agentEmptyInbox : Agent :=
  { db := fun _ => none, last_connection := some testConnEmptyInbox }

def agentBrokenIssuer : Agent :=
  { db := testDbIssuerBroken, last_connection := none }

/-! ### Claim theorems -/

/-- C7: the external-state mappings are pure total functions on the engine
state: the issuer mapping yields exactly Initial, offer-sent,
request-received, credential-sent on its four mapped states and unknown
everywhere else; the holder mapping yields exactly offer-received,
request-sent, credential-received on its three mapped states and unknown
everywhere else. -/
theorem state_maps_total_and_exact :
    issuer_state_map .VcxStateInitialized = .Initial ∧
    issuer_state_map .VcxStateOfferSent = .OfferSent ∧
    issuer_state_map .VcxStateRequestReceived = .RequestReceived ∧
    issuer_state_map .VcxStateAccepted = .CredentialSent ∧
    issuer_state_map .VcxStateNone = .Unknown ∧
    issuer_state_map .VcxStateUnfulfilled = .Unknown ∧
    issuer_state_map .VcxStateExpired = .Unknown ∧
    issuer_state_map .VcxStateRevoked = .Unknown ∧
    holder_state_map .VcxStateRequestReceived = .OfferReceived ∧
    holder_state_map .VcxStateOfferSent = .RequestSent ∧
    holder_state_map .VcxStateAccepted = .CredentialReceived ∧
    holder_state_map .VcxStateNone = .Unknown ∧
    holder_state_map .VcxStateInitialized = .Unknown ∧
    holder_state_map .VcxStateUnfulfilled = .Unknown ∧
    holder_state_map .VcxStateExpired = .Unknown ∧
    holder_state_map .VcxStateRevoked = .Unknown := by
  decide

/-- C2: send_credential_offer fails with NotFoundError when no connection is
stored under the offer's connection id; when the connection is present (and
the dispatch succeeds) it persists the freshly created Issuer, post-send,
under the fresh session id and returns offer-sent with that id as the
thread id, having dispatched the offer. -/
theorem send_credential_offer_spec (a : Agent) (uuid : String) (offer : CredentialOffer) :
    (a.db.get_connection offer.connection_id = none →
      (a.send_credential_offer uuid offer).result =
        .error (.harness ⟨.NotFoundError, "Connection with id " ++ uuid ++ " not found"⟩) ∧
      (a.send_credential_offer uuid offer).agent = a) ∧
    (∀ c, a.db.get_connection offer.connection_id = some c →
      c.send_message_closure_ok = true → c.send_ok = true →
      (a.send_credential_offer uuid offer).result =
        .ok { state := .OfferSent, thread_id := some uuid } ∧
      (a.send_credential_offer uuid offer).agent.db uuid =
        some (.issuer ((Issuer.create
          { cred_def_id := offer.cred_def_id, rev_reg_id := none, tails_file := none }
          (serializePreview offer.credential_preview) uuid).after_send_offer)) ∧
      (a.send_credential_offer uuid offer).sent =
        [.credentialOfferMsg offer.cred_def_id (serializePreview offer.credential_preview) uuid]) := by
  constructor
  · intro h
    simp [Agent.send_credential_offer, h]
  · intro c hc h1 h2
    simp [Agent.send_credential_offer, hc, h1, h2, Db.set]

/-- Witness for C2: a concrete offer against a stored connection succeeds,
and against an empty store fails with NotFoundError. -/
theorem send_credential_offer_spec_witness :
    (agentWithConn.send_credential_offer "S1" testCredOffer).result =
      .ok { state := .OfferSent, thread_id := some "S1" } ∧
    (agentEmpty.send_credential_offer "S1" testCredOffer).result =
      .error (.harness ⟨.NotFoundError, "Connection with id S1 not found"⟩) :=
  ⟨((send_credential_offer_spec agentWithConn "S1" testCredOffer).2 testConn rfl rfl rfl).1,
   ((send_credential_offer_spec agentEmpty "S1" testCredOffer).1 rfl).1⟩

/-- C5: send_credential_offer never writes on failure — every error outcome
leaves the agent untouched — and on success what is stored under the session
id is the Issuer in its post-send state, never a partial transition. -/
theorem send_credential_offer_no_partial_write (a : Agent) (uuid : String)
    (offer : CredentialOffer) :
    (∀ f, (a.send_credential_offer uuid offer).result = .error f →
      (a.send_credential_offer uuid offer).agent = a) ∧
    (∀ resp, (a.send_credential_offer uuid offer).result = .ok resp →
      ∃ i, (a.send_credential_offer uuid offer).agent.db uuid = some (.issuer i) ∧
        i.state_u32 = some 2) := by
  cases hc : a.db.get_connection offer.connection_id with
  | none =>
    refine ⟨fun f _ => ?_, fun resp hresp => ?_⟩
    · simp [Agent.send_credential_offer, hc]
    · simp [Agent.send_credential_offer, hc] at hresp
  | some c =>
    cases h1 : c.send_message_closure_ok with
    | false =>
      refine ⟨fun f _ => ?_, fun resp hresp => ?_⟩
      · simp [Agent.send_credential_offer, hc, h1]
      · simp [Agent.send_credential_offer, hc, h1] at hresp
    | true =>
      cases h2 : c.send_ok with
      | false =>
        refine ⟨fun f _ => ?_, fun resp hresp => ?_⟩
        · simp [Agent.send_credential_offer, hc, h1, h2]
        · simp [Agent.send_credential_offer, hc, h1, h2] at hresp
      | true =>
        refine ⟨fun f hf => ?_, fun resp hresp => ?_⟩
        · simp [Agent.send_credential_offer, hc, h1, h2] at hf
        · exact ⟨(Issuer.create
              { cred_def_id := offer.cred_def_id, rev_reg_id := none, tails_file := none }
              (serializePreview offer.credential_preview) uuid).after_send_offer,
            by simp [Agent.send_credential_offer, hc, h1, h2, Db.set], rfl⟩

/-- Witness for C5: with no connection stored, the send fails and the agent
is unchanged; and a successful send stores a post-send issuer. -/
theorem send_credential_offer_no_partial_write_witness :
    (agentEmpty.send_credential_offer "S1" testCredOffer).agent = agentEmpty ∧
    ∃ i, (agentWithConn.send_credential_offer "S1" testCredOffer).agent.db "S1" =
        some (.issuer i) ∧ i.state_u32 = some 2 :=
  ⟨(send_credential_offer_no_partial_write agentEmpty "S1" testCredOffer).1
      (.harness ⟨.NotFoundError, "Connection with id S1 not found"⟩) rfl,
   (send_credential_offer_no_partial_write agentWithConn "S1" testCredOffer).2
      { state := .OfferSent, thread_id := some "S1" } rfl⟩

/-- C6: send_credential_request fails with NotFoundError and dispatches
nothing when no Holder is persisted; with a Holder but no default connection
it fails with InternalServerError "No connection established"; otherwise it
dispatches the request on the last-known connection and returns the Holder's
new external state. -/
theorem send_credential_request_spec (a : Agent) (id : String) :
    (a.db.get_holder id = none →
      (a.send_credential_request id).result =
        .error (.harness ⟨.NotFoundError, "Holder with id " ++ id ++ " not found"⟩) ∧
      (a.send_credential_request id).sent = [] ∧
      (a.send_credential_request id).agent = a) ∧
    (∀ h, a.db.get_holder id = some h → a.last_connection = none →
      (a.send_credential_request id).result =
        .error (.harness ⟨.InternalServerError, "No connection established"⟩) ∧
      (a.send_credential_request id).sent = []) ∧
    (∀ h c, a.db.get_holder id = some h → a.last_connection = some c →
      c.send_message_closure_ok = true → c.send_ok = true →
      (a.send_credential_request id).result =
        .ok { state := _get_state_holder h.after_send_request, thread_id := none } ∧
      (a.send_credential_request id).sent = [.credentialRequestMsg c.pw_did h.offer]) := by
  refine ⟨fun hn => ?_, fun h hh hc => ?_, fun h c hh hc h1 h2 => ?_⟩
  · simp [Agent.send_credential_request, hn]
  · simp [Agent.send_credential_request, hh, hc]
  · simp [Agent.send_credential_request, hh, hc, h1, h2, Holder.after_send_request]

/-- Witness for C6: on an empty store the request fails with NotFoundError and
no message is sent; with a stored holder and a live connection it reports the
holder's post-request state. -/
theorem send_credential_request_spec_witness :
    ((agentEmpty.send_credential_request "S1").result =
        .error (.harness ⟨.NotFoundError, "Holder with id S1 not found"⟩) ∧
      (agentEmpty.send_credential_request "S1").sent = []) ∧
    (agentWithHolder.send_credential_request "S1").result =
      .ok { state := _get_state_holder testHolder.after_send_request, thread_id := none } :=
  ⟨⟨((send_credential_request_spec agentEmpty "S1").1 rfl).1,
    ((send_credential_request_spec agentEmpty "S1").1 rfl).2.1⟩,
   ((send_credential_request_spec agentWithHolder "S1").2.2 testHolder testConn rfl rfl rfl rfl).1⟩

/-- C10: with an Issuer persisted for the id, get_issuer_state yields a typed
result exactly when the engine's get_state call succeeds; when that call
fails the unwrap panics, so there is no typed-error branch for it. -/
theorem get_issuer_state_unwrap_precondition (a : Agent) (id : String) (issuer : Issuer)
    (hi : a.db.get_issuer id = some issuer) :
    ((∃ resp, (a.get_issuer_state id).result = .ok resp) ↔ issuer.state_u32.isSome = true) ∧
    (issuer.state_u32 = none → (a.get_issuer_state id).result = .error .panic) := by
  cases hs : issuer.state_u32 with
  | none =>
    constructor
    · simp [Agent.get_issuer_state, hi, _get_state_issuer, hs]
    · intro _
      simp [Agent.get_issuer_state, hi, _get_state_issuer, hs]
  | some n =>
    constructor
    · simp [Agent.get_issuer_state, hi, _get_state_issuer, hs]
    · intro hcontra
      simp at hcontra

/-- Witness for C10: a persisted issuer whose engine call fails makes
get_issuer_state panic rather than return a typed result. -/
theorem get_issuer_state_unwrap_precondition_witness :
    (agentBrokenIssuer.get_issuer_state "S1").result = .error .panic :=
  (get_issuer_state_unwrap_precondition agentBrokenIssuer "S1" testIssuerBroken rfl).2 rfl

/-- C3: on an unknown session id with a default connection whose inbox holds
no credential-offer message, get_issuer_state panics — it never succeeds with
a fabricated state, and it writes nothing. -/
theorem get_issuer_state_empty_inbox_no_fabricated_state (a : Agent) (id : String)
    (c : Connection)
    (hi : a.db.get_issuer id = none) (hh : a.db.get_holder id = none)
    (hc : a.last_connection = some c) (hm : c.get_messages_ok = true)
    (he : credentialOffersOf c.inbox = []) :
    (a.get_issuer_state id).result = .error .panic ∧
    (∀ resp, (a.get_issuer_state id).result ≠ .ok resp) ∧
    (a.get_issuer_state id).agent = a := by
  have hmain : (a.get_issuer_state id).result = .error .panic ∧
      (a.get_issuer_state id).agent = a := by
    constructor <;> simp [Agent.get_issuer_state, hi, hh, hc, hm, he]
  refine ⟨hmain.1, ?_, hmain.2⟩
  intro resp hresp
  rw [hmain.1] at hresp
  simp at hresp

/-- Witness for C3: a concrete agent whose default connection's inbox holds a
single non-offer message panics on an unknown id. -/
theorem get_issuer_state_empty_inbox_witness :
    (agentEmptyInbox.get_issuer_state "S9").result = .error .panic :=
  (get_issuer_state_empty_inbox_no_fabricated_state agentEmptyInbox "S9"
    testConnEmptyInbox rfl rfl rfl rfl rfl).1

/-- C8: a successful send_credential_offer followed immediately by
get_issuer_state on the returned session id answers offer-sent: the persisted
Issuer is found in tier one and its engine state maps to offer-sent. -/
theorem send_offer_then_get_state (a : Agent) (uuid : String) (offer : CredentialOffer)
    (c : Connection)
    (hc : a.db.get_connection offer.connection_id = some c)
    (h1 : c.send_message_closure_ok = true) (h2 : c.send_ok = true) :
    (a.send_credential_offer uuid offer).result =
      .ok { state := .OfferSent, thread_id := some uuid } ∧
    (((a.send_credential_offer uuid offer).agent).get_issuer_state uuid).result =
      .ok { state := .OfferSent, thread_id := none } ∧
    ∃ i, ((a.send_credential_offer uuid offer).agent).db.get_issuer uuid = some i ∧
      _get_state_issuer i = some .OfferSent := by
  have hres : (a.send_credential_offer uuid offer).result =
      .ok { state := .OfferSent, thread_id := some uuid } := by
    simp [Agent.send_credential_offer, hc, h1, h2]
  have hdb : (a.send_credential_offer uuid offer).agent.db uuid =
      some (.issuer ((Issuer.create
        { cred_def_id := offer.cred_def_id, rev_reg_id := none, tails_file := none }
        (serializePreview offer.credential_preview) uuid).after_send_offer)) := by
    simp [Agent.send_credential_offer, hc, h1, h2, Db.set]
  refine ⟨hres, ?_, ?_⟩
  · simp [Agent.get_issuer_state, Db.get_issuer, hdb, _get_state_issuer,
      Issuer.create, Issuer.after_send_offer, VcxStateType.from_u32, issuer_state_map]
  · exact ⟨(Issuer.create
        { cred_def_id := offer.cred_def_id, rev_reg_id := none, tails_file := none }
        (serializePreview offer.credential_preview) uuid).after_send_offer,
      by simp [Db.get_issuer, hdb], rfl⟩

/-- Witness for C8: the concrete offer and connection of the fixtures. -/
theorem send_offer_then_get_state_witness :
    (((agentWithConn.send_credential_offer "S1" testCredOffer).agent).get_issuer_state "S1").result =
      .ok { state := .OfferSent, thread_id := none } :=
  (send_offer_then_get_state agentWithConn "S1" testCredOffer testConn rfl rfl rfl).2.1

theorem Db.get_issuer_eq_some (db : Db) (id : String) (i : Issuer) :
    db.get_issuer id = some i ↔ db id = some (.issuer i) := by
  unfold Db.get_issuer
  cases h : db id with
  | none => simp
  | some v => cases v <;> simp

theorem Db.get_holder_eq_some (db : Db) (id : String) (h : Holder) :
    db.get_holder id = some h ↔ db id = some (.holder h) := by
  unfold Db.get_holder
  cases hv : db id with
  | none => simp
  | some v => cases v <;> simp

theorem get_issuer_state_tier2 (a : Agent) (id : String) (h : Holder)
    (hi : a.db.get_issuer id = none) (hh : a.db.get_holder id = some h) :
    (a.get_issuer_state id).result = .ok { state := _get_state_holder h, thread_id := none } ∧
    (a.get_issuer_state id).agent = a := by
  constructor <;> simp [Agent.get_issuer_state, hi, hh]

def agentFreshWithConn : Agent := { db := fun _ => none, last_connection := some testConn }

/-- C1: get_issuer_state resolves state in a fixed three-tier order: a
persisted Issuer's external state first; else a persisted Holder's external
state; else it requires the default connection (InternalServerError when none
is established), drains its inbox, keeps the credential-offer messages,
builds a Holder from the most recently received one, persists it under the
queried id and reports offer-received. -/
theorem get_issuer_state_three_tier (a : Agent) (id : String) :
    (∀ issuer st, a.db.get_issuer id = some issuer → _get_state_issuer issuer = some st →
      (a.get_issuer_state id).result = .ok { state := st, thread_id := none } ∧
      (a.get_issuer_state id).agent = a) ∧
    (a.db.get_issuer id = none → ∀ h, a.db.get_holder id = some h →
      (a.get_issuer_state id).result =
        .ok { state := _get_state_holder h, thread_id := none } ∧
      (a.get_issuer_state id).agent = a) ∧
    (a.db.get_issuer id = none → a.db.get_holder id = none → a.last_connection = none →
      (a.get_issuer_state id).result =
        .error (.harness ⟨.InternalServerError, "No connection established"⟩)) ∧
    (a.db.get_issuer id = none → a.db.get_holder id = none →
      ∀ c, a.last_connection = some c → c.get_messages_ok = true →
      ∀ off, (credentialOffersOf c.inbox).getLast? = some off →
      (a.get_issuer_state id).result = .ok { state := .OfferReceived, thread_id := none } ∧
      (a.get_issuer_state id).agent.db id = some (.holder (Holder.create off id))) := by
  refine ⟨fun issuer st hi hst => ?_, fun hi h hh => ?_, fun hi hh hc => ?_,
    fun hi hh c hc hm off hoff => ?_⟩
  · constructor <;> simp [Agent.get_issuer_state, hi, hst]
  · constructor <;> simp [Agent.get_issuer_state, hi, hh]
  · simp [Agent.get_issuer_state, hi, hh, hc]
  · constructor <;> simp [Agent.get_issuer_state, hi, hh, hc, hm, hoff, Db.set]

/-- Witness for C1: tier two on a stored holder, and tier three on an empty
store with a connection holding offers. -/
theorem get_issuer_state_three_tier_witness :
    (agentWithHolder.get_issuer_state "S1").result =
      .ok { state := _get_state_holder testHolder, thread_id := none } ∧
    (agentFreshWithConn.get_issuer_state "S2").result =
      .ok { state := .OfferReceived, thread_id := none } :=
  ⟨((get_issuer_state_three_tier agentWithHolder "S1").2.1 rfl testHolder rfl).1,
   ((get_issuer_state_three_tier agentFreshWithConn "S2").2.2.2 rfl rfl testConn rfl rfl
      testOffer2 rfl).1⟩

/-- C4: on an unknown id whose default-connection inbox holds two or more
credential offers, get_issuer_state picks the most recently received one
(the last of the filtered inbox), persists exactly one Holder under the
queried id — every other key untouched — and a repeated call answers from the
persisted Holder in tier two, with a result independent of whatever the
connection then holds (no rescan). -/
theorem get_issuer_state_materializes_once (a : Agent) (id : String) (c : Connection)
    (o1 o2 : VcxCredentialOffer) (rest : List VcxCredentialOffer) (off : VcxCredentialOffer)
    (hi : a.db.get_issuer id = none) (hh : a.db.get_holder id = none)
    (hc : a.last_connection = some c) (hm : c.get_messages_ok = true)
    (_hoffers : credentialOffersOf c.inbox = o1 :: o2 :: rest)
    (hlast : (credentialOffersOf c.inbox).getLast? = some off) :
    (a.get_issuer_state id).result = .ok { state := .OfferReceived, thread_id := none } ∧
    (a.get_issuer_state id).agent.db id = some (.holder (Holder.create off id)) ∧
    (∀ k, k ≠ id → (a.get_issuer_state id).agent.db k = a.db k) ∧
    _get_state_holder (Holder.create off id) = .OfferReceived ∧
    (((a.get_issuer_state id).agent).get_issuer_state id).result =
      .ok { state := _get_state_holder (Holder.create off id), thread_id := none } ∧
    (((a.get_issuer_state id).agent).get_issuer_state id).agent.db id =
      some (.holder (Holder.create off id)) ∧
    (∀ c2 : Option Connection,
      (({ db := (a.get_issuer_state id).agent.db, last_connection := c2 } : Agent).get_issuer_state
          id).result =
        .ok { state := _get_state_holder (Holder.create off id), thread_id := none }) := by
  have hstep : (a.get_issuer_state id).agent.db = a.db.set id (.holder (Holder.create off id)) := by
    simp [Agent.get_issuer_state, hi, hh, hc, hm, hlast]
  have hres : (a.get_issuer_state id).result = .ok { state := .OfferReceived, thread_id := none } := by
    simp [Agent.get_issuer_state, hi, hh, hc, hm, hlast]
  have hat : (a.get_issuer_state id).agent.db id = some (.holder (Holder.create off id)) := by
    rw [hstep]; simp [Db.set]
  have hgi : (a.get_issuer_state id).agent.db.get_issuer id = none := by
    rw [hstep]; exact Db.get_issuer_set_holder a.db id _
  have hgh : (a.get_issuer_state id).agent.db.get_holder id = some (Holder.create off id) := by
    rw [hstep]; exact Db.get_holder_set_holder a.db id _
  refine ⟨hres, hat, ?_, rfl, ?_, ?_, ?_⟩
  · intro k hk
    rw [hstep]
    exact Db.set_ne a.db id k _ hk
  · exact (get_issuer_state_tier2 _ id _ hgi hgh).1
  · rw [(get_issuer_state_tier2 _ id _ hgi hgh).2]
    exact hat
  · intro c2
    exact (get_issuer_state_tier2 (Agent.mk (a.get_issuer_state id).agent.db c2) id _ hgi hgh).1

/-- Witness for C4: the fixture inbox holds two offers; the second one is
materialized and the repeat call reads it back. -/
theorem get_issuer_state_materializes_once_witness :
    (agentFreshWithConn.get_issuer_state "S2").agent.db "S2" =
      some (.holder (Holder.create testOffer2 "S2")) ∧
    (((agentFreshWithConn.get_issuer_state "S2").agent).get_issuer_state "S2").result =
      .ok { state := _get_state_holder (Holder.create testOffer2 "S2"), thread_id := none } :=
  ⟨(get_issuer_state_materializes_once agentFreshWithConn "S2" testConn testOffer1 testOffer2
      [] testOffer2 rfl rfl rfl rfl rfl rfl).2.1,
   (get_issuer_state_materializes_once agentFreshWithConn "S2" testConn testOffer1 testOffer2
      [] testOffer2 rfl rfl rfl rfl rfl rfl).2.2.2.2.1⟩

/-! ### Operation sequences, for the monotonicity claim -/

/-- One orchestrator invocation, as routed by the HTTP surface. -/
inductive Op
  | sendOffer : String → CredentialOffer → Op
  | sendRequest : String → Op
  | queryState : String → Op

/-- The agent post-state of one invocation. -/
def execOp (a : Agent) : Op → Agent
  | .sendOffer uuid offer => (a.send_credential_offer uuid offer).agent
  | .sendRequest id => (a.send_credential_request id).agent
  | .queryState id => (a.get_issuer_state id).agent

/-- The agent post-state of a sequence of invocations. -/
def execOps : Agent → List Op → Agent
  | a, [] => a
  | a, op :: rest => execOps (execOp a op) rest

/-- The session id a send-offer invocation uses is the fresh uuid the source
generates; freshness of the draw relative to the current store. -/
def freshOk (a : Agent) : Op → Prop
  | .sendOffer uuid _ => a.db uuid = none
  | .sendRequest _ => True
  | .queryState _ => True

/-- Every send-offer uuid along the run is fresh at its draw. -/
def FreshRun : Agent → List Op → Prop
  | _, [] => True
  | a, op :: rest => freshOk a op ∧ FreshRun (execOp a op) rest

/-- Whether a stored value is a role object (Issuer or Holder). -/
def isRoleObject : StoredValue → Bool
  | .conn _ => false
  | .issuer _ => true
  | .holder _ => true

/-- The external state a stored role object reports when read back. -/
def objState : StoredValue → Option State
  | .conn _ => none
  | .issuer i => _get_state_issuer i
  | .holder h => some (_get_state_holder h)

/-- The state a get-state query reports, when it reports one. -/
def reportOf (a : Agent) (id : String) : Option State :=
  match (a.get_issuer_state id).result with
  | .ok resp => some resp.state
  | .error _ => none

/-- Position of a state in its role's fixed transition order. -/
def roleRank : State → Option (Bool × Nat)
  | .Initial => some (true, 0)
  | .OfferSent => some (true, 1)
  | .RequestReceived => some (true, 2)
  | .CredentialSent => some (true, 3)
  | .OfferReceived => some (false, 0)
  | .RequestSent => some (false, 1)
  | .CredentialReceived => some (false, 2)
  | .Unknown => none

/-- `State.notEarlier s t`: t is not earlier than s in a role's fixed
transition order (equal states count, as do forward moves inside one
role's order). -/
def State.notEarlier (s t : State) : Bool :=
  if s = t then true
  else
    match roleRank s, roleRank t with
    | some (r1, m), some (r2, n) => r1 == r2 && decide (m ≤ n)
    | _, _ => false

theorem send_credential_request_agent_eq (a : Agent) (id : String) :
    (a.send_credential_request id).agent = a := by
  cases hh : a.db.get_holder id with
  | none => simp [Agent.send_credential_request, hh]
  | some h =>
    cases hc : a.last_connection with
    | none => simp [Agent.send_credential_request, hh, hc]
    | some c =>
      cases h1 : c.send_message_closure_ok with
      | false => simp [Agent.send_credential_request, hh, hc, h1]
      | true =>
        cases h2 : c.send_ok with
        | false => simp [Agent.send_credential_request, hh, hc, h1, h2]
        | true => simp [Agent.send_credential_request, hh, hc, h1, h2]

theorem send_credential_offer_db_preserved (a : Agent) (uuid : String)
    (offer : CredentialOffer) (k : String) (hk : a.db uuid = none)
    (hstored : a.db k ≠ none) :
    (a.send_credential_offer uuid offer).agent.db k = a.db k := by
  have hne : k ≠ uuid := fun he => hstored (he ▸ hk)
  cases hc : a.db.get_connection offer.connection_id with
  | none => simp [Agent.send_credential_offer, hc]
  | some c =>
    cases h1 : c.send_message_closure_ok with
    | false => simp [Agent.send_credential_offer, hc, h1]
    | true =>
      cases h2 : c.send_ok with
      | false => simp [Agent.send_credential_offer, hc, h1, h2]
      | true =>
        simp only [Agent.send_credential_offer, hc, h1, h2]
        simp [Db.set, hne]

theorem get_issuer_state_db_preserved_at_role (a : Agent) (qid k : String)
    (v : StoredValue) (hv : a.db k = some v) (hrole : isRoleObject v = true) :
    (a.get_issuer_state qid).agent.db k = some v := by
  cases hi : a.db.get_issuer qid with
  | some issuer =>
    cases hst : _get_state_issuer issuer with
    | none => simpa [Agent.get_issuer_state, hi, hst] using hv
    | some st => simpa [Agent.get_issuer_state, hi, hst] using hv
  | none =>
    cases hh : a.db.get_holder qid with
    | some holder => simpa [Agent.get_issuer_state, hi, hh] using hv
    | none =>
      cases hc : a.last_connection with
      | none => simpa [Agent.get_issuer_state, hi, hh, hc] using hv
      | some c =>
        cases hm : c.get_messages_ok with
        | false => simpa [Agent.get_issuer_state, hi, hh, hc, hm] using hv
        | true =>
          cases hl : (credentialOffersOf c.inbox).getLast? with
          | none => simpa [Agent.get_issuer_state, hi, hh, hc, hm, hl] using hv
          | some off =>
            have hne : k ≠ qid := by
              intro he
              subst he
              cases v with
              | conn c0 => simp [isRoleObject] at hrole
              | issuer i0 => rw [(Db.get_issuer_eq_some a.db k i0).mpr hv] at hi; cases hi
              | holder h0 => rw [(Db.get_holder_eq_some a.db k h0).mpr hv] at hh; cases hh
            simp only [Agent.get_issuer_state, hi, hh, hc, hm, hl]
            simpa [Db.set, hne] using hv

theorem execOp_preserves_role (a : Agent) (op : Op) (k : String) (v : StoredValue)
    (hfresh : freshOk a op) (hv : a.db k = some v) (hrole : isRoleObject v = true) :
    (execOp a op).db k = some v := by
  cases op with
  | sendOffer uuid offer =>
    have huuid : a.db uuid = none := hfresh
    have := send_credential_offer_db_preserved a uuid offer k huuid (by rw [hv]; exact fun h => by cases h)
    rw [execOp, this, hv]
  | sendRequest id => rw [execOp, send_credential_request_agent_eq, hv]
  | queryState id => exact get_issuer_state_db_preserved_at_role a id k v hv hrole

theorem execOps_preserves_role (ops : List Op) (a : Agent) (k : String) (v : StoredValue)
    (hrun : FreshRun a ops) (hv : a.db k = some v) (hrole : isRoleObject v = true) :
    (execOps a ops).db k = some v := by
  induction ops generalizing a with
  | nil => exact hv
  | cons op rest ih =>
    exact ih (execOp a op) hrun.2 (execOp_preserves_role a op k v hrun.1 hv hrole)

theorem report_of_stored (a : Agent) (id : String) (v : StoredValue) (s : State)
    (hv : a.db id = some v) (hrole : isRoleObject v = true) (hs : objState v = some s) :
    reportOf a id = some s := by
  cases v with
  | conn c => simp [isRoleObject] at hrole
  | issuer i =>
    have hi : a.db.get_issuer id = some i := (Db.get_issuer_eq_some a.db id i).mpr hv
    have hst : _get_state_issuer i = some s := hs
    simp [reportOf, Agent.get_issuer_state, hi, hst]
  | holder h =>
    have hi : a.db.get_issuer id = none := by simp [Db.get_issuer, hv]
    have hh : a.db.get_holder id = some h := (Db.get_holder_eq_some a.db id h).mpr hv
    have hst : _get_state_holder h = s := Option.some.inj hs
    simp [reportOf, Agent.get_issuer_state, hi, hh, hst]

theorem report_persists_object (a : Agent) (id : String) (s : State)
    (hrep : reportOf a id = some s) :
    ∃ v, ((a.get_issuer_state id).agent).db id = some v ∧ isRoleObject v = true ∧
      objState v = some s := by
  cases hi : a.db.get_issuer id with
  | some issuer =>
    cases hst : _get_state_issuer issuer with
    | none => simp [reportOf, Agent.get_issuer_state, hi, hst] at hrep
    | some st =>
      have hsv : st = s := by
        simpa [reportOf, Agent.get_issuer_state, hi, hst] using hrep
      refine ⟨.issuer issuer, ?_, rfl, ?_⟩
      · have : (a.get_issuer_state id).agent = a := by
          simp [Agent.get_issuer_state, hi, hst]
        rw [this]
        exact (Db.get_issuer_eq_some a.db id issuer).mp hi
      · rw [show objState (.issuer issuer) = _get_state_issuer issuer from rfl, hst, hsv]
  | none =>
    cases hh : a.db.get_holder id with
    | some holder =>
      have hsv : _get_state_holder holder = s := by
        simpa [reportOf, Agent.get_issuer_state, hi, hh] using hrep
      refine ⟨.holder holder, ?_, rfl, ?_⟩
      · have : (a.get_issuer_state id).agent = a := by
          simp [Agent.get_issuer_state, hi, hh]
        rw [this]
        exact (Db.get_holder_eq_some a.db id holder).mp hh
      · rw [show objState (.holder holder) = some (_get_state_holder holder) from rfl, hsv]
    | none =>
      cases hc : a.last_connection with
      | none => simp [reportOf, Agent.get_issuer_state, hi, hh, hc] at hrep
      | some c =>
        cases hm : c.get_messages_ok with
        | false => simp [reportOf, Agent.get_issuer_state, hi, hh, hc, hm] at hrep
        | true =>
          cases hl : (credentialOffersOf c.inbox).getLast? with
          | none => simp [reportOf, Agent.get_issuer_state, hi, hh, hc, hm, hl] at hrep
          | some off =>
            have hsv : State.OfferReceived = s := by
              simpa [reportOf, Agent.get_issuer_state, hi, hh, hc, hm, hl] using hrep
            refine ⟨.holder (Holder.create off id), ?_, rfl, ?_⟩
            · simp [Agent.get_issuer_state, hi, hh, hc, hm, hl, Db.set]
            · rw [show objState (.holder (Holder.create off id)) =
                  some (_get_state_holder (Holder.create off id)) from rfl]
              rw [show _get_state_holder (Holder.create off id) = .OfferReceived from rfl, hsv]

/-- C9: states reported by get-state queries for one session id never move
backward in the role's fixed transition order across any sequence of
orchestrator invocations whose generated session ids are fresh: once a query
has reported a state, every later query for that id reports a state not
earlier in the order (in fact the same state — no operation of this
controller rewrites a persisted role object). -/
theorem get_state_reports_monotone (a : Agent) (id : String) (s : State) (ops : List Op)
    (hrep : reportOf a id = some s)
    (hrun : FreshRun ((a.get_issuer_state id).agent) ops) :
    ∃ t, reportOf (execOps ((a.get_issuer_state id).agent) ops) id = some t ∧
      State.notEarlier s t = true := by
  obtain ⟨v, hv, hrole, hs⟩ := report_persists_object a id s hrep
  have hpres := execOps_preserves_role ops ((a.get_issuer_state id).agent) id v hrun hv hrole
  refine ⟨s, report_of_stored _ id v s hpres hrole hs, ?_⟩
  simp [State.notEarlier]

/-- Witness for C9: a holder session observed at offer-received keeps
reporting offer-received across a send-request and a repeated query. -/
theorem get_state_reports_monotone_witness :
    ∃ t, reportOf (execOps ((agentWithHolder.get_issuer_state "S1").agent)
        [Op.sendRequest "S1", Op.queryState "S1"]) "S1" = some t ∧
      State.notEarlier .OfferReceived t = true :=
  get_state_reports_monotone agentWithHolder "S1" .OfferReceived
    [Op.sendRequest "S1", Op.queryState "S1"] rfl ⟨trivial, trivial, trivial⟩

end AriesIssuance
